import Mathlib

/-!
# Verification of the aibox configuration resolver and session controller

Shallow embedding of the configuration/command-resolution core of the
`aibox` Docker-wrapper CLI (source files `src/config.js`, `src/cli.js`,
`src/docker.js`, `scripts/start.sh`, `scripts/docker-entrypoint.sh`).

Machine integers are modelled as `Nat` with explicit reduction modulo
`2 ^ 32` where the source relies on 32-bit wraparound (the MD5 hash used
for project identities).  Filesystem state is passed explicitly as a
record of pure probes.  JavaScript `null`/`undefined` values are
modelled with `Option`, and JavaScript truthiness of strings with
`jsTruthy` (both `null` and the empty string are falsy).
-/

namespace Aibox

/-! ## MD5 (as used by `crypto.createHash('md5')` in `src/config.js`)

`getProjectHash` in `src/config.js` computes the hex MD5 digest of the
project path and keeps its first 8 characters.  The embedding implements
the full MD5 algorithm over `Nat` byte lists (RFC 1321), with words
reduced modulo `2 ^ 32`. -/

/-- UTF-8 encoding of a single code point (Node hashes strings as UTF-8). -/
def utf8Encode (c : Nat) : List Nat :=
  if c < 0x80 then [c]
  else if c < 0x800 then [0xc0 + c / 0x40, 0x80 + c % 0x40]
  else if c < 0x10000 then
    [0xe0 + c / 0x1000, 0x80 + c / 0x40 % 0x40, 0x80 + c % 0x40]
  else
    [0xf0 + c / 0x40000, 0x80 + c / 0x1000 % 0x40, 0x80 + c / 0x40 % 0x40,
      0x80 + c % 0x40]

/-- The UTF-8 bytes of a string, as `Nat`s. -/
def strBytes (s : String) : List Nat :=
  s.data.foldr (fun c acc => utf8Encode c.toNat ++ acc) []

/-- Left rotation of a 32-bit word. -/
def rotl32 (x n : Nat) : Nat :=
  ((x <<< n) ||| (x >>> (32 - n))) % 4294967296

/-- The 64 MD5 round constants (RFC 1321). -/
def md5K : List Nat :=
  [0xd76aa478, 0xe8c7b756, 0x242070db, 0xc1bdceee,
   0xf57c0faf, 0x4787c62a, 0xa8304613, 0xfd469501,
   0x698098d8, 0x8b44f7af, 0xffff5bb1, 0x895cd7be,
   0x6b901122, 0xfd987193, 0xa679438e, 0x49b40821,
   0xf61e2562, 0xc040b340, 0x265e5a51, 0xe9b6c7aa,
   0xd62f105d, 0x02441453, 0xd8a1e681, 0xe7d3fbc8,
   0x21e1cde6, 0xc33707d6, 0xf4d50d87, 0x455a14ed,
   0xa9e3e905, 0xfcefa3f8, 0x676f02d9, 0x8d2a4c8a,
   0xfffa3942, 0x8771f681, 0x6d9d6122, 0xfde5380c,
   0xa4beea44, 0x4bdecfa9, 0xf6bb4b60, 0xbebfbc70,
   0x289b7ec6, 0xeaa127fa, 0xd4ef3085, 0x04881d05,
   0xd9d4d039, 0xe6db99e5, 0x1fa27cf8, 0xc4ac5665,
   0xf4292244, 0x432aff97, 0xab9423a7, 0xfc93a039,
   0x655b59c3, 0x8f0ccc92, 0xffeff47d, 0x85845dd1,
   0x6fa87e4f, 0xfe2ce6e0, 0xa3014314, 0x4e0811a1,
   0xf7537e82, 0xbd3af235, 0x2ad7d2bb, 0xeb86d391]

/-- The 64 per-round left-rotation amounts (RFC 1321). -/
def md5S : List Nat :=
  [7, 12, 17, 22, 7, 12, 17, 22, 7, 12, 17, 22, 7, 12, 17, 22,
   5, 9, 14, 20, 5, 9, 14, 20, 5, 9, 14, 20, 5, 9, 14, 20,
   4, 11, 16, 23, 4, 11, 16, 23, 4, 11, 16, 23, 4, 11, 16, 23,
   6, 10, 15, 21, 6, 10, 15, 21, 6, 10, 15, 21, 6, 10, 15, 21]

/-- Little-endian value of a byte list. -/
def leNat : List Nat → Nat
  | [] => 0
  | b :: bs => b + 256 * leNat bs

/-- Group a chunk of bytes into little-endian 32-bit words. -/
def group4 : List Nat → List Nat
  | b0 :: b1 :: b2 :: b3 :: rest => leNat [b0, b1, b2, b3] :: group4 rest
  | _ => []

/-- One MD5 round: `st` is the `(A, B, C, D)` state, `i` the round index,
`M` the 16 message words of the current chunk. -/
def md5Round (M : List Nat) (st : Nat × Nat × Nat × Nat) (i : Nat) :
    Nat × Nat × Nat × Nat :=
  let a := st.1
  let b := st.2.1
  let c := st.2.2.1
  let d := st.2.2.2
  let f :=
    if i < 16 then (b &&& c) ||| ((0xffffffff ^^^ b) &&& d)
    else if i < 32 then (d &&& b) ||| ((0xffffffff ^^^ d) &&& c)
    else if i < 48 then b ^^^ c ^^^ d
    else c ^^^ (b ||| (0xffffffff ^^^ d))
  let g :=
    if i < 16 then i
    else if i < 32 then (5 * i + 1) % 16
    else if i < 48 then (3 * i + 5) % 16
    else 7 * i % 16
  let f2 := (f + a + md5K.getD i 0 + M.getD g 0) % 4294967296
  (d, (b + rotl32 f2 (md5S.getD i 0)) % 4294967296, b, c)

/-- Process one 64-byte chunk, updating the running digest state. -/
def md5Chunk (st : Nat × Nat × Nat × Nat) (chunk : List Nat) :
    Nat × Nat × Nat × Nat :=
  let M := group4 chunk
  let r := (List.range 64).foldl (md5Round M) st
  ((st.1 + r.1) % 4294967296, (st.2.1 + r.2.1) % 4294967296,
   (st.2.2.1 + r.2.2.1) % 4294967296, (st.2.2.2 + r.2.2.2) % 4294967296)

/-- Process `fuel` chunks of 64 bytes from the padded message. -/
def md5Loop (fuel : Nat) (st : Nat × Nat × Nat × Nat) (l : List Nat) :
    Nat × Nat × Nat × Nat :=
  match fuel with
  | 0 => st
  | fuel + 1 => md5Loop fuel (md5Chunk st (l.take 64)) (l.drop 64)

/-- The 8 little-endian bytes of the 64-bit message bit length. -/
def lenLE8 (n : Nat) : List Nat :=
  [n % 256, n / 256 % 256, n / 65536 % 256, n / 16777216 % 256,
   n / 4294967296 % 256, n / 1099511627776 % 256,
   n / 281474976710656 % 256, n / 72057594037927936 % 256]

/-- MD5 padding: a `0x80` byte, zeros to 56 mod 64, then the bit length. -/
def md5Pad (msg : List Nat) : List Nat :=
  msg ++ 0x80 :: (List.replicate ((119 - msg.length % 64) % 64) 0
    ++ lenLE8 (msg.length * 8))

/-- The 4 little-endian bytes of a 32-bit word. -/
def wordLE4 (n : Nat) : List Nat :=
  [n % 256, n / 256 % 256, n / 65536 % 256, n / 16777216 % 256]

/-- MD5 digest (16 bytes) of a byte list. -/
def md5Bytes (msg : List Nat) : List Nat :=
  let padded := md5Pad msg
  let r := md5Loop (padded.length / 64)
    (0x67452301, 0xefcdab89, 0x98badcfe, 0x10325476) padded
  wordLE4 r.1 ++ wordLE4 r.2.1 ++ wordLE4 r.2.2.1 ++ wordLE4 r.2.2.2

/-- Lower-case hex digit. -/
def hexDigit (n : Nat) : Char :=
  Char.ofNat (if n < 10 then 48 + n else 87 + n)

/-- The hex characters of the MD5 digest of a string. -/
def md5hexChars (s : String) : List Char :=
  (md5Bytes (strBytes s)).foldr
    (fun b acc => hexDigit (b / 16) :: hexDigit (b % 16) :: acc) []

/-- Full hex MD5 digest of a string, as in `crypto.createHash('md5')
.update(s).digest('hex')`. -/
def md5hex (s : String) : String :=
  String.mk (md5hexChars s)

/-- `getProjectHash` from `src/config.js`: the first 8 hex characters of
the MD5 digest of the absolute project path. -/
def getProjectHash (projectPath : String) : String :=
  String.mk ((md5hexChars projectPath).take 8)

set_option maxRecDepth 100000

/-! ## Container identity (`src/cli.js`)

`src/cli.js` derives the container name for an invocation as the
template literal `aibox-${options.account}-${projectHash}` where
`projectHash = config.getProjectHash(projectRoot)`. -/

/-- The container name assembled in `main` of `src/cli.js`. -/
def containerName (account projectRoot : String) : String :=
  "aibox-" ++ account ++ "-" ++ getProjectHash projectRoot

/-! ## Command resolution (`src/cli.js` lines 227-248)

The command executed inside the container is chosen by a priority chain:
explicit custom command, then YOLO mode, then bare trailing CLI
arguments, then the explicit shell flag, then "the type flag was passed
explicitly on the raw argument vector", then the interactive-shell
fallback. -/

/-- `getYoloFlags` from `src/cli.js`: the per-CLI skip-permissions
flags. -/
def getYoloFlags (cliType : String) : String :=
  if cliType = "claude" then "--dangerously-skip-permissions"
  else if cliType = "codex" then "--sandbox danger-full-access --ask-for-approval never"
  else if cliType = "gemini" then "--yolo"
  else ""

/-- JavaScript `array.join(' ')`. -/
def joinSpace : List String → String
  | [] => ""
  | [x] => x
  | x :: xs => x ++ " " ++ joinSpace xs

/-- JavaScript whitespace for `String.prototype.trim`. -/
def isWS (c : Char) : Bool :=
  c == ' ' || c == '\t' || c == '\n' || c == '\r'

/-- JavaScript `String.prototype.trim`: strip leading and trailing
whitespace. -/
def strTrim (s : String) : String :=
  String.mk (((s.data.dropWhile isWS).reverse.dropWhile isWS).reverse)

/-- JavaScript truthiness of a possibly-absent string: `null`,
`undefined` and `""` are falsy. -/
def jsTruthy : Option String → Bool
  | none => false
  | some s => s ≠ ""

/-- The command-resolution chain of `main` in `src/cli.js` (lines
227-248).  The first branch is the JS truthiness test
`if (options.command)`, so an empty custom command falls through the
chain.  `typeSpecified` models
`program.rawArgs.some(arg => arg === '-t' || arg === '--type')`, the
probe of the raw argument vector. -/
def resolveCommand (customCommand : Option String) (yolo : Bool)
    (shell : Bool) (cliType : String) (cliArgs : List String)
    (typeSpecified : Bool) : String :=
  if jsTruthy customCommand then customCommand.getD ""
  else
    if yolo then
      strTrim (cliType ++ " " ++ getYoloFlags cliType ++ " " ++ joinSpace cliArgs)
    else if cliArgs.length > 0 then
      cliType ++ " " ++ joinSpace cliArgs
    else if shell then "/bin/bash"
    else if typeSpecified then cliType
    else "/bin/bash"

/-! ## Filesystem model

`src/config.js` probes the host filesystem only through
`fs.existsSync`, `fs.readdirSync` and `os.homedir()`; these are passed
explicitly as a record of pure probes. -/

/-- The host filesystem as seen through the probes used by
`src/config.js`. -/
structure FS where
  existsSync : String → Bool
  readdirSync : String → List String
  homedir : String

/-- `path.join` for one absolute directory and one relative name (the
only shape used by the embedded code). -/
def pathJoin (dir name : String) : String :=
  dir ++ "/" ++ name

/-- JavaScript `Object.assign` semantics for one key: the source value
wins when present, otherwise the accumulator keeps its value. -/
def jor (src acc : Option String) : Option String :=
  match src with
  | some v => some v
  | none => acc

/-! ## Sorted listings

`listSSHKeys` and `listEnvFiles` in `src/config.js` end in
`Array.prototype.sort()`; the embedding uses insertion sort on
strings. -/

/-- Insert a string into a sorted list. -/
def insertSorted (x : String) : List String → List String
  | [] => [x]
  | y :: ys => if x ≤ y then x :: y :: ys else y :: insertSorted x ys

/-- `Array.prototype.sort()` on a string list. -/
def sortStrings (l : List String) : List String :=
  l.foldr insertSorted []

/-- JavaScript `String.prototype.startsWith`. -/
def strStartsWith (s pat : String) : Bool :=
  List.isPrefixOf pat.data s.data

/-- JavaScript `String.prototype.endsWith`. -/
def strEndsWith (s pat : String) : Bool :=
  List.isPrefixOf pat.data.reverse s.data.reverse

/-- Substring test on char lists: some tail has the pattern as a
leading segment. -/
def charsInclude (pat : List Char) : List Char → Bool
  | [] => pat.isEmpty
  | c :: rest => List.isPrefixOf pat (c :: rest) || charsInclude pat rest

/-- JavaScript `String.prototype.includes` (substring test). -/
def strIncludes (s pat : String) : Bool :=
  charsInclude pat.data s.data

/-- JavaScript `String.prototype.substring(n)` / Lean `String.drop`, on
the char list. -/
def strDrop (s : String) (n : Nat) : String :=
  String.mk (s.data.drop n)

/-! ## Configuration resolver (`src/config.js`) -/

/-- Built-in defaults (`DEFAULTS` in `src/config.js`). -/
def DEFAULTS_AI_ACCOUNT : String := "default"

/-- Built-in default CLI (`DEFAULTS.AI_CLI`). -/
def DEFAULTS_AI_CLI : String := "claude"

/-- Built-in default container user (`DEFAULTS.CONTAINER_USER`). -/
def DEFAULTS_CONTAINER_USER : String := "ai"

/-- Built-in default uid (`DEFAULTS.USER_UID`). -/
def DEFAULTS_USER_UID : String := "1001"

/-- Built-in default gid (`DEFAULTS.USER_GID`). -/
def DEFAULTS_USER_GID : String := "1001"

/-- Built-in default image (`DEFAULTS.IMAGE_NAME`). -/
def DEFAULTS_IMAGE_NAME : String := "ghcr.io/zzev/aibox:latest"

/-- `getProfilePath` from `src/config.js`: profiles live at
`~/.aibox/profiles/<account>.toml`. -/
def getProfilePath (fs : FS) (account : String) : String :=
  pathJoin (pathJoin (pathJoin fs.homedir ".aibox") "profiles")
    (account ++ ".toml")

/-- `findProjectEnvFile` from `src/config.js`: an explicit name must
exist under the project root (else `null`, "will trigger error in
caller"); with no explicit name, probe `.env.local` then `.env`, and
`null` means "no env file" (not an error). -/
def findProjectEnvFile (fs : FS) (projectRoot : String)
    (envFile : Option String) : Option String :=
  match envFile with
  | some name =>
    if fs.existsSync (pathJoin projectRoot name) then
      some (pathJoin projectRoot name)
    else none
  | none =>
    if fs.existsSync (pathJoin projectRoot ".env.local") then
      some (pathJoin projectRoot ".env.local")
    else if fs.existsSync (pathJoin projectRoot ".env") then
      some (pathJoin projectRoot ".env")
    else none

/-- `listSSHKeys` from `src/config.js`: the files of `~/.ssh` whose
names start with `id_` and do not end with `.pub`, sorted. -/
def listSSHKeys (fs : FS) : List String :=
  let sshDir := pathJoin fs.homedir ".ssh"
  if fs.existsSync sshDir then
    sortStrings ((fs.readdirSync sshDir).filter
      (fun f => strStartsWith f "id_" && !strEndsWith f ".pub"))
  else []

/-- `listEnvFiles` from `src/config.js`: the files of the project root
whose names start with `.env` and do not contain `.example`, sorted. -/
def listEnvFiles (fs : FS) (projectRoot : String) : List String :=
  sortStrings ((fs.readdirSync projectRoot).filter
    (fun f => strStartsWith f ".env" && !strIncludes f ".example"))

/-- Result of `getSSHConfig` in `src/config.js`: either the mount
parameters, or a non-fatal `notFound` flag, or nothing at all (when
`~/.ssh` itself is missing). -/
structure SSHConfig where
  notFound : Bool
  sshKeyFile : Option String
  SSH_KEY_PATH : Option String
  SSH_KEY_FILE : Option String
deriving DecidableEq

/-- `getSSHConfig` from `src/config.js`.  An empty requested key name is
falsy in JavaScript and behaves like no request. -/
def getSSHConfig (fs : FS) (sshKeyFile : Option String) : SSHConfig :=
  let sshDir := pathJoin fs.homedir ".ssh"
  if fs.existsSync sshDir then
    match sshKeyFile with
    | some k =>
      if k = "" then ⟨false, none, some sshDir, none⟩
      else if fs.existsSync (pathJoin sshDir k) then
        ⟨false, none, some sshDir, some k⟩
      else ⟨true, some k, none, none⟩
    | none => ⟨false, none, some sshDir, none⟩
  else ⟨false, none, none, none⟩

/-- The caller-side warning of `main` in `src/cli.js` (lines 197-203):
an SSH warning is printed exactly when `sshConfig.notFound` is set. -/
def sshWarningEmitted (fs : FS) (sshKeyFile : Option String) : Bool :=
  (getSSHConfig fs sshKeyFile).notFound

/-- `getCliConfigDirs` from `src/config.js`: `(~/.claude, ~/.codex)` for
the default account, account-suffixed directories otherwise. -/
def getCliConfigDirs (fs : FS) (account : String) : String × String :=
  if account = "default" then
    (pathJoin fs.homedir ".claude", pathJoin fs.homedir ".codex")
  else
    (pathJoin fs.homedir (".claude-" ++ account),
     pathJoin fs.homedir (".codex-" ++ account))

/-- A loaded profile: the exact set of keys `parseTOMLFile` in
`src/config.js` can emit, each present only when the corresponding TOML
key is present.  A missing or unparseable profile file is the record
with every field `none` (`loadProfile` returns `{}` then). -/
structure Profile where
  AI_ACCOUNT : Option String := none
  AI_CLI : Option String := none
  GIT_AUTHOR_NAME : Option String := none
  GIT_AUTHOR_EMAIL : Option String := none
  GIT_COMMITTER_NAME : Option String := none
  GIT_COMMITTER_EMAIL : Option String := none
  SSH_KEY_FILE : Option String := none
  SSH_KEY_PATH : Option String := none
  DOCKER_IMAGE : Option String := none
  GH_TOKEN : Option String := none
  CLAUDE_CONFIG_DIR : Option String := none
  CODEX_HOME : Option String := none
  NODE_ENV : Option String := none
deriving DecidableEq

/-- The session environment assembled by `buildEnvironment` in
`src/config.js`, one optional field per environment key it may set. -/
structure Env where
  AI_ACCOUNT : Option String := none
  AI_CLI : Option String := none
  CONTAINER_USER : Option String := none
  USER_UID : Option String := none
  USER_GID : Option String := none
  AIBOX_PROJECT_DIR : Option String := none
  GIT_AUTHOR_NAME : Option String := none
  GIT_AUTHOR_EMAIL : Option String := none
  GIT_COMMITTER_NAME : Option String := none
  GIT_COMMITTER_EMAIL : Option String := none
  SSH_KEY_PATH : Option String := none
  SSH_KEY_FILE : Option String := none
  GH_TOKEN : Option String := none
  NODE_ENV : Option String := none
  CLAUDE_CONFIG_DIR : Option String := none
  CODEX_HOME : Option String := none
  GITIGNORE_GLOBAL_PATH : Option String := none
  ENV_FILE : Option String := none
  AI_ENV_FILE : Option String := none
  AIBOX_PROJECT_HASH : Option String := none
  DOCKER_IMAGE : Option String := none
deriving DecidableEq

/-- `buildEnvironment` from `src/config.js`, with the profile already
loaded (`loadProfile` reads the account's TOML file; its possible
results are exactly the `Profile` records). Mirrors the source step by
step: core settings, `Object.assign(env, profile)`, tilde expansion of
the per-CLI config directories, SSH config (skipped if `notFound`),
global gitignore, project env file (`/dev/null` sentinel when absent),
profile path, project hash, and the image default. -/
def buildEnvironment (fs : FS) (profile : Profile)
    (account cli projectRoot : String) (envFile : Option String) : Env :=
  -- core settings
  let e : Env :=
    { AI_ACCOUNT := some account
      AI_CLI := some cli
      CONTAINER_USER := some DEFAULTS_CONTAINER_USER
      USER_UID := some DEFAULTS_USER_UID
      USER_GID := some DEFAULTS_USER_GID
      AIBOX_PROJECT_DIR := some projectRoot }
  -- Object.assign(env, profile)
  let e :=
    { e with
      AI_ACCOUNT := jor profile.AI_ACCOUNT e.AI_ACCOUNT
      AI_CLI := jor profile.AI_CLI e.AI_CLI
      GIT_AUTHOR_NAME := jor profile.GIT_AUTHOR_NAME e.GIT_AUTHOR_NAME
      GIT_AUTHOR_EMAIL := jor profile.GIT_AUTHOR_EMAIL e.GIT_AUTHOR_EMAIL
      GIT_COMMITTER_NAME := jor profile.GIT_COMMITTER_NAME e.GIT_COMMITTER_NAME
      GIT_COMMITTER_EMAIL := jor profile.GIT_COMMITTER_EMAIL e.GIT_COMMITTER_EMAIL
      SSH_KEY_FILE := jor profile.SSH_KEY_FILE e.SSH_KEY_FILE
      SSH_KEY_PATH := jor profile.SSH_KEY_PATH e.SSH_KEY_PATH
      DOCKER_IMAGE := jor profile.DOCKER_IMAGE e.DOCKER_IMAGE
      GH_TOKEN := jor profile.GH_TOKEN e.GH_TOKEN
      CLAUDE_CONFIG_DIR := jor profile.CLAUDE_CONFIG_DIR e.CLAUDE_CONFIG_DIR
      CODEX_HOME := jor profile.CODEX_HOME e.CODEX_HOME
      NODE_ENV := jor profile.NODE_ENV e.NODE_ENV }
  -- tilde expansion of the per-CLI config directories, with defaults
  let e :=
    { e with
      CLAUDE_CONFIG_DIR :=
        match profile.CLAUDE_CONFIG_DIR with
        | some d =>
          if strStartsWith d "~/" then some (pathJoin fs.homedir (strDrop d 2))
          else some d
        | none => some (getCliConfigDirs fs account).1
      CODEX_HOME :=
        match profile.CODEX_HOME with
        | some d =>
          if strStartsWith d "~/" then some (pathJoin fs.homedir (strDrop d 2))
          else some d
        | none => some (getCliConfigDirs fs account).2 }
  -- SSH config: assigned only when the key was not reported missing
  let ssh := getSSHConfig fs profile.SSH_KEY_FILE
  let e :=
    if ssh.notFound then e
    else
      { e with
        SSH_KEY_PATH := jor ssh.SSH_KEY_PATH e.SSH_KEY_PATH
        SSH_KEY_FILE := jor ssh.SSH_KEY_FILE e.SSH_KEY_FILE }
  -- global gitignore
  let e :=
    if fs.existsSync (pathJoin fs.homedir ".gitignore_global") then
      { e with
        GITIGNORE_GLOBAL_PATH := some (pathJoin fs.homedir ".gitignore_global") }
    else e
  -- project env file, profile path, project hash, image default
  { e with
    ENV_FILE :=
      some (match findProjectEnvFile fs projectRoot envFile with
            | some p => p
            | none => "/dev/null")
    AI_ENV_FILE := some (getProfilePath fs account)
    AIBOX_PROJECT_HASH := some (getProjectHash projectRoot)
    DOCKER_IMAGE :=
      if jsTruthy e.DOCKER_IMAGE then e.DOCKER_IMAGE
      else some DEFAULTS_IMAGE_NAME }

/-! ## Env-file resolution with the explicit-name error path
(`scripts/start.sh` lines 252-276)

With an explicitly supplied name that is missing, the resolution fails
(`exit 1`) and prints the `.env*` files present in the project root,
excluding example/template files; otherwise it succeeds, falling back to
the `/dev/null` sentinel when nothing is found. -/

/-- Outcome of env-file resolution: a resolved path, or a failure
carrying the missing path and the listing of available env files. -/
inductive EnvFileResult where
  | ok : String → EnvFileResult
  | missing : String → List String → EnvFileResult
deriving DecidableEq

/-- The `ENV_FILE` resolution of `scripts/start.sh` (lines 252-276),
with the availability listing computed as by `listEnvFiles` of
`src/config.js`. -/
def resolveEnvFile (fs : FS) (projectRoot : String)
    (envFile : Option String) : EnvFileResult :=
  match envFile with
  | some name =>
    if fs.existsSync (pathJoin projectRoot name) then
      .ok (pathJoin projectRoot name)
    else .missing (pathJoin projectRoot name) (listEnvFiles fs projectRoot)
  | none =>
    match findProjectEnvFile fs projectRoot none with
    | some p => .ok p
    | none => .ok "/dev/null"

/-! ## Committer defaulting (`scripts/docker-entrypoint.sh` lines 29-30)

Inside the container the entrypoint exports
`GIT_COMMITTER_EMAIL="${GIT_COMMITTER_EMAIL:-${GIT_AUTHOR_EMAIL}}"` (and
the same for the name): an unset or empty committer field falls back to
the author field. -/

/-- Bash `${x:-y}` with both parameters expanded then exported: unset or
empty `x` falls back to `y`'s value (empty when `y` is also unset). -/
def bashDefault (x y : Option String) : String :=
  match x with
  | some v => if v = "" then y.getD "" else v
  | none => y.getD ""

/-- The committer email in effect inside the container after
`docker-entrypoint.sh` line 30 runs on the assembled environment. -/
def resolvedCommitterEmail (e : Env) : String :=
  bashDefault e.GIT_COMMITTER_EMAIL e.GIT_AUTHOR_EMAIL

/-! ## Update-check mode (`src/cli.js` lines 132-168,
`src/docker.js` `checkImageUpdate`) -/

/-- The record returned by `checkImageUpdate` in `src/docker.js`, with
its JavaScript truthiness collapsed to `Bool` (the digests feeding it
are `null` or a non-empty `sha256:...` string). -/
structure UpdateInfo where
  available : Bool
  hasLocal : Bool
  hasRemote : Bool
deriving DecidableEq

/-- `checkImageUpdate` from `src/docker.js`:
`available = localDigest && remoteDigest && localDigest !== remoteDigest`,
`hasLocal = !!localDigest`, `hasRemote = !!remoteDigest`. -/
def checkImageUpdate (localDigest remoteDigest : Option String) :
    UpdateInfo :=
  ⟨jsTruthy localDigest && jsTruthy remoteDigest
      && !(localDigest == remoteDigest),
   jsTruthy localDigest, jsTruthy remoteDigest⟩

/-- The four observable outcomes of `--update` mode in `src/cli.js`. -/
inductive UpdateOutcome where
  | connectionError
  | notPresentLocally
  | proposePull
  | alreadyCurrent
deriving DecidableEq

/-- The `--update` branch of `main` in `src/cli.js` (lines 145-165):
no remote digest is a fatal connection error (`ui.error` exits 1), no
local digest reports "not found locally" and exits 0, `available`
proposes a pull behind a confirmation, and otherwise the image is
already current. -/
def updateMode (localDigest remoteDigest : Option String) :
    UpdateOutcome :=
  let info := checkImageUpdate localDigest remoteDigest
  if !info.hasRemote then .connectionError
  else if !info.hasLocal then .notPresentLocally
  else if info.available then .proposePull
  else .alreadyCurrent

/-- Process exit code of each `--update` outcome (`ui.error` in
`src/ui.js` exits with code 1; the other branches reach
`process.exit(0)`). -/
def updateExitCode : UpdateOutcome → Nat
  | .connectionError => 1
  | _ => 0

/-- Whether `--update` mode runs `docker.pullImage`: only a proposed
pull that the user confirms does. -/
def updateAttemptsPull (o : UpdateOutcome) (confirmed : Bool) : Bool :=
  o == UpdateOutcome.proposePull && confirmed

/-- The update-check decision table as the specification words it:
remote digest unobtainable is a connection error; otherwise a missing
local digest reports "not present"; otherwise differing digests propose
a pull; equal digests report already current. -/
def updateModeSpec (localDigest remoteDigest : Option String) :
    UpdateOutcome :=
  if remoteDigest = none then .connectionError
  else if localDigest = none then .notPresentLocally
  else if localDigest ≠ remoteDigest then .proposePull
  else .alreadyCurrent

/-! ## Sanity checks and shared lemmas -/

example : md5hex "" = "d41d8cd98f00b204e9800998ecf8427e" := by decide

example : md5hex "abc" = "900150983cd24fb0d6963f7d28e17f72" := by decide

/-- Strings: a common left factor of an append can be cancelled. -/
theorem strAppendCancel (s t u : String) (h : s ++ t = s ++ u) : t = u := by
  have hd := congrArg String.data h
  simp only [String.data_append] at hd
  exact String.ext (List.append_cancel_left hd)

/-- Membership in an insertion step. -/
theorem mem_insertSorted (a x : String) (l : List String) :
    a ∈ insertSorted x l ↔ a = x ∨ a ∈ l := by
  induction l with
  | nil => simp [insertSorted]
  | cons y ys ih =>
    by_cases hxy : x ≤ y
    · simp [insertSorted, hxy]
    · simp [insertSorted, hxy, ih, or_left_comm]

/-- `sortStrings` preserves membership. -/
theorem mem_sortStrings (a : String) (l : List String) :
    a ∈ sortStrings l ↔ a ∈ l := by
  induction l with
  | nil => simp [sortStrings]
  | cons x xs ih =>
    simp only [sortStrings, List.foldr_cons, mem_insertSorted, List.mem_cons]
    rw [show xs.foldr insertSorted [] = sortStrings xs from rfl, ih]

/-! ## Claim C1 -/

/-- C1, counterexample: the claim says that two distinct project paths
under one account always get distinct container identities, but the
identity only uses the first 8 hex characters (32 bits) of the MD5
digest, and `/p/83642` and `/p/84984` collide on that truncation, so
their containers collide under the `default` account. -/
theorem C1_counterexample :
    ("/p/83642" : String) ≠ "/p/84984" ∧
    containerName "default" "/p/83642" = containerName "default" "/p/84984" := by
  constructor
  · decide
  · decide

/-- C1 (amended): container identity is a deterministic, pure function
of the account and the project path (computing it twice yields the same
string), and two project paths under one account get distinct
identities whenever their truncated project hashes differ (truncation
to 8 hex characters admits collisions). -/
theorem C1_container_identity (account p₁ p₂ : String)
    (h : getProjectHash p₁ ≠ getProjectHash p₂) :
    containerName account p₁ = containerName account p₁ ∧
    containerName account p₁ ≠ containerName account p₂ := by
  refine ⟨rfl, fun hc => h ?_⟩
  exact strAppendCancel ("aibox-" ++ account ++ "-") _ _ hc

/-- C1 witness: the hypotheses of `C1_container_identity` hold at the
concrete paths `/p/0` and `/p/1`, and the conclusion follows. -/
theorem C1_container_identity_witness :
    getProjectHash "/p/0" ≠ getProjectHash "/p/1" ∧
    (containerName "work" "/p/0" = containerName "work" "/p/0" ∧
     containerName "work" "/p/0" ≠ containerName "work" "/p/1") :=
  ⟨by decide, C1_container_identity "work" "/p/0" "/p/1" (by decide)⟩

/-! ## Claim C2 -/

/-- C2, counterexample: with no custom command, YOLO mode on, CLI type
`codex` and trailing argument `foo`, the resolved command is the codex
unsafe-flag command **with `foo` appended**, not the bare unsafe-flag
command the claim asserts (the trailing arguments are not ignored). -/
theorem C2_counterexample :
    resolveCommand none true false "codex" ["foo"] false =
      "codex --sandbox danger-full-access --ask-for-approval never foo" ∧
    resolveCommand none true false "codex" ["foo"] false ≠
      "codex --sandbox danger-full-access --ask-for-approval never" := by
  constructor
  · decide
  · decide

/-- C2 (amended): with customCommand null and the yolo flag set, command
resolution for CLI type `codex` yields the codex unsafe-flag command
with the trailing arguments appended (space-joined) after the flags,
the whole string trimmed; the yolo branch wins over the bare
trailing-args branch, but the arguments are kept. -/
theorem C2_yolo_appends_args (args : List String) (sh ts : Bool) :
    resolveCommand none true sh "codex" args ts =
      strTrim ("codex --sandbox danger-full-access --ask-for-approval never "
        ++ joinSpace args) := by
  rfl

/-! ## Claim C3 -/

/-- C3, counterexample: two invocations that agree on all five listed
inputs (no custom command, no yolo, no shell flag, CLI type `claude`,
no trailing arguments) resolve to different commands depending on
whether `-t`/`--type` occurs in the raw argument vector: `claude`
versus `/bin/bash`.  The same divergence occurs when the custom command
is supplied but empty (`aibox -c ""`), because `if (options.command)`
is a truthiness test and the empty string falls through the chain. -/
theorem C3_counterexample :
    resolveCommand none false false "claude" [] true = "claude" ∧
    resolveCommand none false false "claude" [] false = "/bin/bash" ∧
    resolveCommand none false false "claude" [] true ≠
      resolveCommand none false false "claude" [] false ∧
    resolveCommand (some "") false false "claude" [] true = "claude" ∧
    resolveCommand (some "") false false "claude" [] false = "/bin/bash" ∧
    resolveCommand (some "") false false "claude" [] true ≠
      resolveCommand (some "") false false "claude" [] false := by
  refine ⟨by decide, by decide, by decide, by decide, by decide, by decide⟩

/-- C3 (amended): command resolution is a pure function of six inputs —
the five listed plus whether the type flag occurs in the raw argument
vector — and the sixth input only matters in the final fallback: as
soon as a truthy (non-null, non-empty) custom command, the yolo flag, a
trailing argument, or the shell flag is present, the raw-argument probe
cannot change the resolved command. -/
theorem C3_resolution_inputs (c : Option String) (y sh : Bool)
    (t : String) (a : List String) (ts₁ ts₂ : Bool)
    (h : jsTruthy c = true ∨ y = true ∨ a ≠ [] ∨ sh = true) :
    resolveCommand c y sh t a ts₁ = resolveCommand c y sh t a ts₂ := by
  cases hc : jsTruthy c
  · rcases h with h | h | h | h
    · exact absurd h (by simp [hc])
    · subst h; simp [resolveCommand, hc]
    · rcases a with _ | ⟨x, xs⟩
      · exact absurd rfl h
      · cases y <;> simp [resolveCommand, hc]
    · subst h
      rcases a with _ | ⟨x, xs⟩ <;> cases y <;> simp [resolveCommand, hc]
  · simp [resolveCommand, hc]

/-- C3 witness: the theorem applied at a concrete input satisfying the
first disjunct of its hypothesis. -/
theorem C3_resolution_inputs_witness :
    (jsTruthy (some "ls -la") = true ∨ false = true ∨
      ([] : List String) ≠ [] ∨ false = true) ∧
    resolveCommand (some "ls -la") false false "claude" [] true =
      resolveCommand (some "ls -la") false false "claude" [] false :=
  ⟨Or.inl (by decide),
   C3_resolution_inputs (some "ls -la") false false "claude" [] true false
     (Or.inl (by decide))⟩

/-! ## Claim C4 -/

/-- C4: an explicitly supplied env-file name that does not exist under
the project root makes env-file resolution fail with a "file not found"
error carrying the listing of the `.env*` files actually present in the
project root (excluding example/template files); it does not resolve to
the `/dev/null` sentinel.  The listing contains exactly the directory
entries that start with `.env` and do not contain `.example`. -/
theorem C4_explicit_env_missing (fs : FS) (root name f : String)
    (h : fs.existsSync (pathJoin root name) = false) :
    resolveEnvFile fs root (some name) =
      .missing (pathJoin root name) (listEnvFiles fs root) ∧
    resolveEnvFile fs root (some name) ≠ .ok "/dev/null" ∧
    (f ∈ listEnvFiles fs root ↔
      f ∈ fs.readdirSync root ∧ strStartsWith f ".env" = true ∧
        strIncludes f ".example" = false) := by
  refine ⟨by simp [resolveEnvFile, h], by simp [resolveEnvFile, h], ?_⟩
  simp [listEnvFiles, mem_sortStrings, List.mem_filter, and_assoc]

/-- C4 witness: a project root holding `.env.production`,
`.env.example` and `src`, probed for the missing explicit name
`custom.env`. -/
theorem C4_explicit_env_missing_witness :
    (FS.mk (fun p => p == "/proj/.env.production")
        (fun _ => [".env.production", ".env.example", "src"])
        "/h").existsSync (pathJoin "/proj" "custom.env") = false ∧
    (resolveEnvFile (FS.mk (fun p => p == "/proj/.env.production")
        (fun _ => [".env.production", ".env.example", "src"]) "/h")
        "/proj" (some "custom.env") =
      .missing (pathJoin "/proj" "custom.env")
        (listEnvFiles (FS.mk (fun p => p == "/proj/.env.production")
          (fun _ => [".env.production", ".env.example", "src"]) "/h") "/proj") ∧
    resolveEnvFile (FS.mk (fun p => p == "/proj/.env.production")
        (fun _ => [".env.production", ".env.example", "src"]) "/h")
        "/proj" (some "custom.env") ≠ .ok "/dev/null" ∧
    (".env.production" ∈ listEnvFiles
        (FS.mk (fun p => p == "/proj/.env.production")
          (fun _ => [".env.production", ".env.example", "src"]) "/h") "/proj" ↔
      ".env.production" ∈ [".env.production", ".env.example", "src"] ∧
        strStartsWith ".env.production" ".env" = true ∧
        strIncludes ".env.production" ".example" = false)) :=
  ⟨by decide,
   C4_explicit_env_missing
     (FS.mk (fun p => p == "/proj/.env.production")
       (fun _ => [".env.production", ".env.example", "src"]) "/h")
     "/proj" "custom.env" ".env.production" (by decide)⟩

/-! ## Claim C5 -/

/-- C5: with no explicit env-file name, resolution probes
`<projectRoot>/.env.local` first, then `<projectRoot>/.env`, returning
the first that exists; when neither exists it still succeeds, and the
descriptor's `ENV_FILE` field is the `/dev/null` sentinel instead of a
failure. -/
theorem C5_env_probe_order (fs : FS) (profile : Profile)
    (account cli root : String) :
    findProjectEnvFile fs root none =
      (if fs.existsSync (pathJoin root ".env.local") then
        some (pathJoin root ".env.local")
      else if fs.existsSync (pathJoin root ".env") then
        some (pathJoin root ".env")
      else none) ∧
    (buildEnvironment fs profile account cli root none).ENV_FILE =
      some ((findProjectEnvFile fs root none).getD "/dev/null") ∧
    resolveEnvFile fs root none =
      .ok ((findProjectEnvFile fs root none).getD "/dev/null") := by
  refine ⟨rfl, ?_, ?_⟩
  · rcases hf : findProjectEnvFile fs root none with _ | p <;>
      simp [buildEnvironment, hf]
  · rcases hf : findProjectEnvFile fs root none with _ | p <;>
      simp [resolveEnvFile, hf]

/-! ## Claim C6 -/

/-- C6: when the SSH directory exists but the profile's requested key
file is absent from it, SSH resolution returns the non-fatal
"key not found" flag (carrying the requested name, no mount
parameters), the caller emits the warning, and the available-keys
listing contains exactly the files of the SSH directory whose names
start with `id_` and do not end with `.pub`. -/
theorem C6_ssh_key_missing (fs : FS) (key f : String)
    (hdir : fs.existsSync (pathJoin fs.homedir ".ssh") = true)
    (hkey : fs.existsSync (pathJoin (pathJoin fs.homedir ".ssh") key) = false)
    (hne : key ≠ "") :
    getSSHConfig fs (some key) = ⟨true, some key, none, none⟩ ∧
    sshWarningEmitted fs (some key) = true ∧
    (f ∈ listSSHKeys fs ↔
      f ∈ fs.readdirSync (pathJoin fs.homedir ".ssh") ∧
        strStartsWith f "id_" = true ∧ strEndsWith f ".pub" = false) := by
  refine ⟨by simp [getSSHConfig, hdir, hkey, hne],
    by simp [sshWarningEmitted, getSSHConfig, hdir, hkey, hne], ?_⟩
  simp [listSSHKeys, hdir, mem_sortStrings, List.mem_filter, and_assoc]

/-- C6 witness: an SSH directory holding `id_rsa`, `id_rsa.pub` and
`config`, probed for the absent key `id_work`. -/
theorem C6_ssh_key_missing_witness :
    (FS.mk (fun p => p == "/h/.ssh")
        (fun _ => ["id_rsa", "id_rsa.pub", "config"]) "/h").existsSync
      (pathJoin "/h" ".ssh") = true ∧
    (FS.mk (fun p => p == "/h/.ssh")
        (fun _ => ["id_rsa", "id_rsa.pub", "config"]) "/h").existsSync
      (pathJoin (pathJoin "/h" ".ssh") "id_work") = false ∧
    ("id_work" : String) ≠ "" ∧
    (getSSHConfig (FS.mk (fun p => p == "/h/.ssh")
        (fun _ => ["id_rsa", "id_rsa.pub", "config"]) "/h") (some "id_work") =
      ⟨true, some "id_work", none, none⟩ ∧
    sshWarningEmitted (FS.mk (fun p => p == "/h/.ssh")
        (fun _ => ["id_rsa", "id_rsa.pub", "config"]) "/h")
      (some "id_work") = true ∧
    ("id_rsa" ∈ listSSHKeys (FS.mk (fun p => p == "/h/.ssh")
        (fun _ => ["id_rsa", "id_rsa.pub", "config"]) "/h") ↔
      "id_rsa" ∈ ["id_rsa", "id_rsa.pub", "config"] ∧
        strStartsWith "id_rsa" "id_" = true ∧
        strEndsWith "id_rsa" ".pub" = false)) :=
  ⟨by decide, by decide, by decide,
   C6_ssh_key_missing
     (FS.mk (fun p => p == "/h/.ssh")
       (fun _ => ["id_rsa", "id_rsa.pub", "config"]) "/h")
     "id_work" "id_rsa" (by decide) (by decide) (by decide)⟩

/-! ## A normal form for `buildEnvironment` -/

/-- `jor` into a present accumulator value is always present. -/
theorem jor_some_isSome (a : Option String) (b : String) :
    (jor a (some b)).isSome = true := by
  cases a <;> rfl

/-- `buildEnvironment` written as one explicit record: each field of the
merged environment, with the conditional SSH and gitignore assignments
pushed into the affected fields. -/
theorem buildEnvironment_eq (fs : FS) (p : Profile)
    (account cli root : String) (ef : Option String) :
    buildEnvironment fs p account cli root ef =
      { AI_ACCOUNT := jor p.AI_ACCOUNT (some account)
        AI_CLI := jor p.AI_CLI (some cli)
        CONTAINER_USER := some DEFAULTS_CONTAINER_USER
        USER_UID := some DEFAULTS_USER_UID
        USER_GID := some DEFAULTS_USER_GID
        AIBOX_PROJECT_DIR := some root
        GIT_AUTHOR_NAME := jor p.GIT_AUTHOR_NAME none
        GIT_AUTHOR_EMAIL := jor p.GIT_AUTHOR_EMAIL none
        GIT_COMMITTER_NAME := jor p.GIT_COMMITTER_NAME none
        GIT_COMMITTER_EMAIL := jor p.GIT_COMMITTER_EMAIL none
        SSH_KEY_PATH :=
          if (getSSHConfig fs p.SSH_KEY_FILE).notFound then
            jor p.SSH_KEY_PATH none
          else
            jor (getSSHConfig fs p.SSH_KEY_FILE).SSH_KEY_PATH
              (jor p.SSH_KEY_PATH none)
        SSH_KEY_FILE :=
          if (getSSHConfig fs p.SSH_KEY_FILE).notFound then
            jor p.SSH_KEY_FILE none
          else
            jor (getSSHConfig fs p.SSH_KEY_FILE).SSH_KEY_FILE
              (jor p.SSH_KEY_FILE none)
        GH_TOKEN := jor p.GH_TOKEN none
        NODE_ENV := jor p.NODE_ENV none
        CLAUDE_CONFIG_DIR :=
          match p.CLAUDE_CONFIG_DIR with
          | some d =>
            if strStartsWith d "~/" then
              some (pathJoin fs.homedir (strDrop d 2))
            else some d
          | none => some (getCliConfigDirs fs account).1
        CODEX_HOME :=
          match p.CODEX_HOME with
          | some d =>
            if strStartsWith d "~/" then
              some (pathJoin fs.homedir (strDrop d 2))
            else some d
          | none => some (getCliConfigDirs fs account).2
        GITIGNORE_GLOBAL_PATH :=
          if fs.existsSync (pathJoin fs.homedir ".gitignore_global") then
            some (pathJoin fs.homedir ".gitignore_global")
          else none
        ENV_FILE := some ((findProjectEnvFile fs root ef).getD "/dev/null")
        AI_ENV_FILE := some (getProfilePath fs account)
        AIBOX_PROJECT_HASH := some (getProjectHash root)
        DOCKER_IMAGE :=
          if jsTruthy (jor p.DOCKER_IMAGE none) then jor p.DOCKER_IMAGE none
          else some DEFAULTS_IMAGE_NAME } := by
  unfold buildEnvironment
  rcases h1 : (getSSHConfig fs p.SSH_KEY_FILE).notFound <;>
    rcases h2 : fs.existsSync (pathJoin fs.homedir ".gitignore_global") <;>
    rcases h3 : findProjectEnvFile fs root ef <;>
    simp [h1, h2, h3]

/-! ## Claim C7 -/

/-- C7: for a profile that defines a git author email and lacks
`GIT_COMMITTER_EMAIL`, the author email reaches the descriptor
unchanged and the committer email in effect inside the container (after
the entrypoint's `${GIT_COMMITTER_EMAIL:-${GIT_AUTHOR_EMAIL}}`
defaulting) equals that author email. -/
theorem C7_committer_defaults_to_author (fs : FS) (profile : Profile)
    (account cli root : String) (ef : Option String) (e : String)
    (hA : profile.GIT_AUTHOR_EMAIL = some e)
    (hC : profile.GIT_COMMITTER_EMAIL = none) :
    (buildEnvironment fs profile account cli root ef).GIT_AUTHOR_EMAIL =
      some e ∧
    resolvedCommitterEmail (buildEnvironment fs profile account cli root ef)
      = e := by
  rw [resolvedCommitterEmail, buildEnvironment_eq]
  simp [hA, hC, jor, bashDefault]

/-- C7 witness: a profile defining only the author email, merged for
the default account. -/
theorem C7_committer_defaults_to_author_witness :
    (Profile.mk none none none (some "dev@example.com") none none none
        none none none none none none).GIT_AUTHOR_EMAIL =
      some "dev@example.com" ∧
    (Profile.mk none none none (some "dev@example.com") none none none
        none none none none none none).GIT_COMMITTER_EMAIL = none ∧
    ((buildEnvironment (FS.mk (fun _ => false) (fun _ => []) "/h")
        (Profile.mk none none none (some "dev@example.com") none none none
          none none none none none none)
        "default" "claude" "/proj" none).GIT_AUTHOR_EMAIL =
      some "dev@example.com" ∧
    resolvedCommitterEmail
      (buildEnvironment (FS.mk (fun _ => false) (fun _ => []) "/h")
        (Profile.mk none none none (some "dev@example.com") none none none
          none none none none none none)
        "default" "claude" "/proj" none) = "dev@example.com") :=
  ⟨rfl, rfl,
   C7_committer_defaults_to_author
     (FS.mk (fun _ => false) (fun _ => []) "/h")
     (Profile.mk none none none (some "dev@example.com") none none none
       none none none none none none)
     "default" "claude" "/proj" none "dev@example.com" rfl rfl⟩

/-! ## Claim C8 -/

/-- C8: update-check behaves as the specification's decision table on
the (never-empty) digests: an unobtainable remote digest is a fatal
connection error (exit code 1); an obtained remote digest with no local
digest reports "not present locally" with exit code 0 and no pull; a
pull is proposed (and runs only behind a confirmed prompt) exactly when
both digests exist and differ; equal digests report already current. -/
theorem C8_update_check (l r : Option String)
    (hl : l ≠ some "") (hr : r ≠ some "") :
    updateMode l r = updateModeSpec l r ∧
    updateExitCode UpdateOutcome.connectionError = 1 ∧
    updateExitCode UpdateOutcome.notPresentLocally = 0 ∧
    updateAttemptsPull UpdateOutcome.notPresentLocally true = false ∧
    updateAttemptsPull UpdateOutcome.alreadyCurrent true = false ∧
    updateAttemptsPull UpdateOutcome.proposePull false = false ∧
    updateAttemptsPull UpdateOutcome.proposePull true = true := by
  refine ⟨?_, rfl, rfl, rfl, rfl, rfl, rfl⟩
  rcases l with _ | lv <;> rcases r with _ | rv <;>
    simp_all [updateMode, updateModeSpec, checkImageUpdate, jsTruthy]

/-- C8 witness: concrete differing digests. -/
theorem C8_update_check_witness :
    (some "sha256:aaa" : Option String) ≠ some "" ∧
    (some "sha256:bbb" : Option String) ≠ some "" ∧
    (updateMode (some "sha256:aaa") (some "sha256:bbb") =
      updateModeSpec (some "sha256:aaa") (some "sha256:bbb") ∧
    updateExitCode UpdateOutcome.connectionError = 1 ∧
    updateExitCode UpdateOutcome.notPresentLocally = 0 ∧
    updateAttemptsPull UpdateOutcome.notPresentLocally true = false ∧
    updateAttemptsPull UpdateOutcome.alreadyCurrent true = false ∧
    updateAttemptsPull UpdateOutcome.proposePull false = false ∧
    updateAttemptsPull UpdateOutcome.proposePull true = true) :=
  ⟨by decide, by decide,
   C8_update_check (some "sha256:aaa") (some "sha256:bbb")
     (by decide) (by decide)⟩

/-! ## Claim C9 -/

/-- C9: for every account, profile (including the empty record that a
missing, empty or unparseable profile file loads to) and invocation,
the merged environment carries a complete set of required fields:
account id, CLI id, container user/uid/gid, project directory, project
hash, image reference, both per-CLI config directories, an env-file
path (possibly the `/dev/null` sentinel) and the profile path are all
present. -/
theorem C9_complete_environment (fs : FS) (profile : Profile)
    (account cli root : String) (ef : Option String) :
    (buildEnvironment fs profile account cli root ef).AI_ACCOUNT.isSome = true ∧
    (buildEnvironment fs profile account cli root ef).AI_CLI.isSome = true ∧
    (buildEnvironment fs profile account cli root ef).CONTAINER_USER.isSome = true ∧
    (buildEnvironment fs profile account cli root ef).USER_UID.isSome = true ∧
    (buildEnvironment fs profile account cli root ef).USER_GID.isSome = true ∧
    (buildEnvironment fs profile account cli root ef).AIBOX_PROJECT_DIR.isSome = true ∧
    (buildEnvironment fs profile account cli root ef).AIBOX_PROJECT_HASH.isSome = true ∧
    (buildEnvironment fs profile account cli root ef).DOCKER_IMAGE.isSome = true ∧
    (buildEnvironment fs profile account cli root ef).CLAUDE_CONFIG_DIR.isSome = true ∧
    (buildEnvironment fs profile account cli root ef).CODEX_HOME.isSome = true ∧
    (buildEnvironment fs profile account cli root ef).ENV_FILE.isSome = true ∧
    (buildEnvironment fs profile account cli root ef).AI_ENV_FILE.isSome = true := by
  rw [buildEnvironment_eq]
  refine ⟨jor_some_isSome _ _, jor_some_isSome _ _, rfl, rfl, rfl, rfl,
    rfl, ?_, ?_, ?_, rfl, rfl⟩
  · rcases profile.DOCKER_IMAGE with _ | v
    · rfl
    · by_cases hv : v = "" <;> simp [jor, jsTruthy, hv]
  · rcases profile.CLAUDE_CONFIG_DIR with _ | d
    · rfl
    · by_cases hd : strStartsWith d "~/" <;> simp [hd]
  · rcases profile.CODEX_HOME with _ | d
    · rfl
    · by_cases hd : strStartsWith d "~/" <;> simp [hd]

/-! ## Claim C10 -/

/-- C10: when the host has no `~/.ssh` directory, SSH resolution
returns the empty configuration — no mount parameters and no
"key not found" flag — even when a specific key file is requested, so
the caller emits no key-not-found warning at all. -/
theorem C10_no_ssh_dir (fs : FS) (key : Option String)
    (h : fs.existsSync (pathJoin fs.homedir ".ssh") = false) :
    getSSHConfig fs key = ⟨false, none, none, none⟩ ∧
    sshWarningEmitted fs key = false := by
  constructor
  · simp [getSSHConfig, h]
  · simp [sshWarningEmitted, getSSHConfig, h]

/-- C10 witness: a host with no filesystem entries at all, a requested
key `id_work`. -/
theorem C10_no_ssh_dir_witness :
    (FS.mk (fun _ => false) (fun _ => []) "/h").existsSync
      (pathJoin "/h" ".ssh") = false ∧
    (getSSHConfig (FS.mk (fun _ => false) (fun _ => []) "/h")
        (some "id_work") = ⟨false, none, none, none⟩ ∧
    sshWarningEmitted (FS.mk (fun _ => false) (fun _ => []) "/h")
      (some "id_work") = false) :=
  ⟨by decide,
   C10_no_ssh_dir (FS.mk (fun _ => false) (fun _ => []) "/h")
     (some "id_work") (by decide)⟩

end Aibox

